import Mathlib

/-!
Verification of the blob container tools of this repository: the application
blob manager, the all in one application blob builder, the binary blob
builder and the user data blob builder. The python classes are shallowly
embedded: byte strings become lists of natural numbers, python dicts become
insertion ordered association lists, and the external library calls of
tarfile, zlib, hashlib and datetime are modeled as explicit function or data
arguments, while the json serialization of the index is modeled by concrete
byte level encoders that mirror how json.dumps walks the index dict.
-/

namespace Blob

/-- Bytes of an ASCII string: one byte per character, the code point. All
keys and metadata strings handled by the tools are ASCII, where utf8 bytes
and code points agree. -/
def utf8 (s : String) : List Nat := s.data.map Char.toNat

/-- Decimal digit bytes of a natural number, as json.dumps prints an int. -/
def natDigits (n : Nat) : List Nat :=
  (Nat.toDigits 10 n).map Char.toNat

/-- Little endian two byte encoding, struct.pack with format H. -/
def u16le (n : Nat) : List Nat := [n % 256, n / 256 % 256]

/-- Little endian four byte encoding, struct.pack with format I. -/
def u32le (n : Nat) : List Nat :=
  [n % 256, n / 256 % 256, n / 65536 % 256, n / 16777216 % 256]

/-- Value of a little endian byte list, as struct.unpack reads it back. -/
def leVal : List Nat → Nat
  | [] => 0
  | b :: t => b + 256 * leVal t

/-- Membership test of an association list that models a python dict. -/
def hasKey : List (String × α) → String → Bool
  | [], _ => false
  | (k', _) :: t, k => (k' == k) || hasKey t k

/-- First value stored under a key, modeling python dict lookup. -/
def lookupKey : List (String × α) → String → Option α
  | [], _ => none
  | (k', v) :: t, k => if k == k' then some v else lookupKey t k

/-- Dict assignment: replace in place when the key exists, keeping the
insertion position as python dicts do, append otherwise. -/
def dictInsert (l : List (String × α)) (k : String) (v : α) : List (String × α) :=
  if hasKey l k then l.map (fun p => if p.1 == k then (k, v) else p)
  else l ++ [(k, v)]

/-- Dict deletion by key. -/
def dictErase (l : List (String × α)) (k : String) : List (String × α) :=
  l.filter (fun p => !(p.1 == k))

/-- Comma separated concatenation of already encoded json items. -/
def jComma : List (List Nat) → List Nat
  | [] => []
  | [x] => x
  | x :: y :: t => x ++ [44] ++ jComma (y :: t)

/-- Json object from encoded fields; byte 123 is the opening brace and byte
125 the closing brace. The pretty printing whitespace of indent 2 that
json.dumps inserts is omitted; it only adds bytes to every serialized entry
and affects none of the compared properties. -/
def jObj (fields : List (List Nat)) : List Nat := [123] ++ jComma fields ++ [125]

/-- Json string literal of an ASCII string without escapes, byte 34 being
the double quote. -/
def jStr (s : String) : List Nat := [34] ++ utf8 s ++ [34]

/-- One json object field: quoted name, colon, space, encoded value. -/
def jField (name : String) (v : List Nat) : List Nat := jStr name ++ [58, 32] ++ v

/-- Json array of encoded items, bytes 91 and 93 being the brackets. -/
def jArr (items : List (List Nat)) : List Nat := [91] ++ jComma items ++ [93]

/-- The json null literal, used for python None. -/
def jNull : List Nat := utf8 ("null")

/-- Json encoding of an optional natural, None becoming null. -/
def jOptNat : Option Nat → List Nat
  | none => jNull
  | some n => natDigits n

/-- A source directory tree as the tools consume it: whether the path
exists, the archive bytes tarfile produces for it, the relative file names
os.walk yields, the same with per file sizes, and the executables and shared
libraries the binary builder detects while walking. -/
structure Source where
  pathExists : Bool
  tarData : List Nat
  fileNames : List String
  filesWithSizes : List (String × Nat)
  executables : List String
  libraries : List String
deriving DecidableEq

/-- The AppMetadata dataclass of app_blob_manager.py. The checksum is the
hex digest string hashlib.sha256 returns over the uncompressed archive. -/
structure AppMeta where
  key : String
  name : String
  version : String
  size : Nat
  compressed_size : Nat
  offset : Nat
  dependencies : List String
  files : List String
  checksum : String
deriving DecidableEq

/-- Builder state of AppBlobBuilder in app_blob_manager.py: the apps dict,
the in memory payload buffer and the write cursor. -/
structure AppState where
  apps : List (String × AppMeta)
  blob_data : List Nat
  current_offset : Nat
deriving DecidableEq

/-- A fresh AppBlobBuilder of app_blob_manager.py. -/
def emptyAppState : AppState := { apps := [], blob_data := [], current_offset := 0 }

/-- The add_application method of AppBlobBuilder in app_blob_manager.py:
archive, compress, hash, append the compressed bytes to the payload buffer,
record the metadata at the current cursor, advance the cursor. There is no
duplicate key check; dict assignment replaces an existing entry in place.
The zlib compressor and the sha256 hex digest are function arguments. -/
def add_application (compress : List Nat → List Nat) (hash : List Nat → String)
    (st : AppState) (app_key app_name : String) (src : Source)
    (version : String) (dependencies : List String) : AppState :=
  let tar := src.tarData
  let comp := compress tar
  let meta : AppMeta :=
    { key := app_key, name := app_name, version := version,
      size := tar.length, compressed_size := comp.length,
      offset := st.current_offset, dependencies := dependencies,
      files := src.fileNames, checksum := hash tar }
  { apps := dictInsert st.apps app_key meta,
    blob_data := st.blob_data ++ comp,
    current_offset := st.current_offset + comp.length }

/-- Json encoding of one AppMetadata value in dataclass field order, as
json.dumps serializes the asdict result inside the index. -/
def jsonAppMeta (m : AppMeta) : List Nat :=
  jObj [jField ("key") (jStr m.key),
        jField ("name") (jStr m.name),
        jField ("version") (jStr m.version),
        jField ("size") (natDigits m.size),
        jField ("compressed_size") (natDigits m.compressed_size),
        jField ("offset") (natDigits m.offset),
        jField ("dependencies") (jArr (m.dependencies.map jStr)),
        jField ("files") (jArr (m.files.map jStr)),
        jField ("checksum") (jStr m.checksum)]

/-- The index dict that the build method of app_blob_manager.py serializes:
a version string and the apps mapping. -/
def jsonManagerIndex (apps : List (String × AppMeta)) : List Nat :=
  jObj [jField ("version") (jStr ("1.0")),
        jField ("apps") (jObj (apps.map (fun p => jField p.1 (jsonAppMeta p.2))))]

/-- The magic tag APPBLOB1 shared by both application blob tools. -/
def APP_MAGIC : List Nat := utf8 ("APPBLOB1")

/-- The build method of AppBlobBuilder in app_blob_manager.py: magic bytes,
four byte index size, index bytes, payload buffer. This variant writes no
format version field. -/
def managerBuild (st : AppState) : List Nat :=
  let indexBytes := jsonManagerIndex st.apps
  APP_MAGIC ++ u32le indexBytes.length ++ indexBytes ++ st.blob_data

/-- Reader state of AppBlobExtractor: the parsed index and the bytes of the
blob file from the data offset on, which is where the payload region
starts; a read of compressed_size bytes at offset is a drop and a take. -/
structure ExtractorState where
  index : List (String × AppMeta)
  payload : List Nat

/-- The extract_to_memory method of AppBlobExtractor in app_blob_manager.py:
look the key up, read exactly compressed_size bytes at the recorded offset,
decompress, return the bytes. A zlib failure is the none result of the
decompress argument and propagates uncaught. No checksum comparison is
performed on this path. -/
def extract_to_memory (decompress : List Nat → Option (List Nat))
    (st : ExtractorState) (app_key : String) : Option (List Nat) :=
  match lookupKey st.index app_key with
  | none => none
  | some md => decompress ((st.payload.drop md.offset).take md.compressed_size)

/-- The extract_application method of AppBlobExtractor, shared line for line
by app_blob_manager.py and the extractor class of app-blob-builder.py, with
its file system effects made explicit: the second component lists the
directories created and populated under the target directory. Every failure
path returns False together with an empty effect list, because the method
returns before any makedirs or extractall call. -/
def extract_application (decompress : List Nat → Option (List Nat))
    (hash : List Nat → String) (st : ExtractorState)
    (app_key target_dir : String) (verify_checksum : Bool) :
    Bool × List String :=
  match lookupKey st.index app_key with
  | none => (false, [])
  | some md =>
    match decompress ((st.payload.drop md.offset).take md.compressed_size) with
    | none => (false, [])
    | some tar_data =>
      if verify_checksum && !(hash tar_data == md.checksum) then (false, [])
      else (true, [target_dir ++ ("/") ++ app_key])

/-- Membership test of a python list or set of strings. -/
def inList (k : String) : List String → Bool
  | [] => false
  | x :: t => (x == k) || inList k t

/-- Remaining dependency workload of the resolver: total length of the
dependency lists of index entries whose key is not yet resolved. It bounds
how many queue appends the loop can still perform. -/
def remWork (res : List String) : List (String × AppMeta) → Nat
  | [] => 0
  | (k, m) :: t => (if inList k res then 0 else m.dependencies.length) + remWork res t

/-- The while loop of resolve_dependencies with explicit fuel. Every
iteration pops the queue head, skips an already resolved key, warns and
skips a key absent from the index, and otherwise marks the key resolved and
appends its not yet resolved dependencies to the queue. The none result
means the fuel ran out; the termination theorem shows the fuel chosen in
resolve_dependencies never does. -/
def resolveLoop (idx : List (String × AppMeta)) :
    Nat → List String → List String → Option (List String)
  | _, [], res => some res
  | 0, _ :: _, _ => none
  | fuel + 1, k :: rest, res =>
    if inList k res then resolveLoop idx fuel rest res
    else
      match lookupKey idx k with
      | none => resolveLoop idx fuel rest res
      | some m =>
        let res2 := res ++ [k]
        resolveLoop idx fuel
          (rest ++ m.dependencies.filter (fun d => !(inList d res2))) res2

/-- The resolve_dependencies method shared by AppBlobExtractor of
app_blob_manager.py and, over its own index, BinaryBlobBuilder. The python
set of resolved keys is modeled as a duplicate free list in insertion
order. -/
def resolve_dependencies (idx : List (String × AppMeta))
    (app_keys : List String) : Option (List String) :=
  resolveLoop idx (app_keys.length + remWork [] idx) app_keys []

/-- The AppMetadata dataclass of app-blob-builder.py, which extends the one
of app_blob_manager.py with a creation timestamp. -/
structure AppMetaB where
  key : String
  name : String
  version : String
  size : Nat
  compressed_size : Nat
  offset : Nat
  dependencies : List String
  files : List String
  checksum : String
  created_at : String
deriving DecidableEq

/-- Builder state of AppBlobBuilder in app-blob-builder.py. -/
structure AppBState where
  apps : List (String × AppMetaB)
  blob_data : List Nat
  current_offset : Nat
deriving DecidableEq

/-- A fresh AppBlobBuilder of app-blob-builder.py. -/
def emptyAppBState : AppBState := { apps := [], blob_data := [], current_offset := 0 }

/-- The add_application method of AppBlobBuilder in app-blob-builder.py. It
returns False without touching the state when the source path is missing;
it performs no duplicate key check, so dict assignment replaces an existing
entry in place while the compressed bytes are appended again. The datetime
now value is an argument. The description parameter of the python signature
is accepted and never used, exactly as in the source. -/
def addApplicationB (compress : List Nat → List Nat) (hash : List Nat → String)
    (st : AppBState) (app_key app_name : String) (src : Source)
    (version : String) (dependencies : List String) (descr : String)
    (now : String) : Bool × AppBState :=
  if src.pathExists = false then (false, st)
  else
    let _ := descr
    let tar := src.tarData
    let comp := compress tar
    let meta : AppMetaB :=
      { key := app_key, name := app_name, version := version,
        size := tar.length, compressed_size := comp.length,
        offset := st.current_offset, dependencies := dependencies,
        files := src.fileNames, checksum := hash tar, created_at := now }
    (true,
     { apps := dictInsert st.apps app_key meta,
       blob_data := st.blob_data ++ comp,
       current_offset := st.current_offset + comp.length })

/-- Json encoding of one AppMetaB value in dataclass field order. -/
def jsonAppMetaB (m : AppMetaB) : List Nat :=
  jObj [jField ("key") (jStr m.key),
        jField ("name") (jStr m.name),
        jField ("version") (jStr m.version),
        jField ("size") (natDigits m.size),
        jField ("compressed_size") (natDigits m.compressed_size),
        jField ("offset") (natDigits m.offset),
        jField ("dependencies") (jArr (m.dependencies.map jStr)),
        jField ("files") (jArr (m.files.map jStr)),
        jField ("checksum") (jStr m.checksum),
        jField ("created_at") (jStr m.created_at)]

/-- The index dict that the build method of app-blob-builder.py serializes:
integer format version, blob type tag, creation time, apps mapping. -/
def jsonBuilderIndex (now : String) (apps : List (String × AppMetaB)) : List Nat :=
  jObj [jField ("version") (natDigits 1),
        jField ("blob_type") (jStr ("applications")),
        jField ("created_at") (jStr now),
        jField ("apps") (jObj (apps.map (fun p => jField p.1 (jsonAppMetaB p.2))))]

/-- The build method of AppBlobBuilder in app-blob-builder.py: magic bytes,
two byte version, four byte index size, index bytes, payload buffer. -/
def builderBuild (now : String) (st : AppBState) : List Nat :=
  let indexBytes := jsonBuilderIndex now st.apps
  APP_MAGIC ++ u16le 1 ++ u32le indexBytes.length ++ indexBytes ++ st.blob_data

/-- The metadata dict that add_binary of binary-blob-builder.py records, in
literal insertion order. -/
structure BinMeta where
  key : String
  version : String
  description : String
  size : Nat
  compressed_size : Nat
  offset : Nat
  checksum : String
  provides : List String
  executables : List String
  libraries : List String
  dependencies : List String
  env_vars : List (String × String)
  architecture : String
  os_type : String
  created_at : String
deriving DecidableEq

/-- Builder state of BinaryBlobBuilder. -/
structure BinState where
  binaries : List (String × BinMeta)
  blob_data : List Nat
  current_offset : Nat
deriving DecidableEq

/-- A fresh BinaryBlobBuilder. -/
def emptyBinState : BinState := { binaries := [], blob_data := [], current_offset := 0 }

/-- The add_binary method of BinaryBlobBuilder: it refuses a key that is
already present and a missing source path, both before any mutation, and
otherwise archives, compresses, hashes, appends the compressed bytes and
records the metadata at the current cursor. The executable and library
detection of the os.walk loop is carried by the source record. -/
def add_binary (compress : List Nat → List Nat) (hash : List Nat → String)
    (st : BinState) (key : String) (src : Source) (provides : List String)
    (version description : String) (env_vars : List (String × String))
    (dependencies : List String) (architecture os_type : String)
    (now : String) : Bool × BinState :=
  if hasKey st.binaries key then (false, st)
  else if src.pathExists = false then (false, st)
  else
    let tar := src.tarData
    let comp := compress tar
    let meta : BinMeta :=
      { key := key, version := version, description := description,
        size := tar.length, compressed_size := comp.length,
        offset := st.current_offset, checksum := hash tar,
        provides := provides, executables := src.executables,
        libraries := src.libraries, dependencies := dependencies,
        env_vars := env_vars, architecture := architecture,
        os_type := os_type, created_at := now }
    (true,
     { binaries := dictInsert st.binaries key meta,
       blob_data := st.blob_data ++ comp,
       current_offset := st.current_offset + comp.length })

/-- The per user metadata dict that add_user of userdata-blob-builder.py
records, in literal insertion order. -/
structure UserMeta where
  user_id : String
  description : String
  size : Nat
  compressed_size : Nat
  offset : Nat
  file_count : Nat
  files : List (String × Nat)
  checksum : String
  quota_mb : Option Nat
  created_at : String
  updated_at : String
  version : Nat
deriving DecidableEq

/-- Builder state of UserDataBlobBuilder. -/
structure UserState where
  users : List (String × UserMeta)
  blob_data : List Nat
  current_offset : Nat
deriving DecidableEq

/-- A fresh UserDataBlobBuilder. -/
def emptyUserState : UserState := { users := [], blob_data := [], current_offset := 0 }

/-- The add_user method of UserDataBlobBuilder: it refuses an existing user
id and a missing source path before any mutation, and otherwise archives,
compresses, hashes, appends the compressed bytes to the payload buffer and
records the user metadata at the current cursor with version counter 1. -/
def add_user (compress : List Nat → List Nat) (hash : List Nat → String)
    (st : UserState) (user_id : String) (src : Source)
    (description : String) (quota_mb : Option Nat) (now : String) :
    Bool × UserState :=
  if hasKey st.users user_id then (false, st)
  else if src.pathExists = false then (false, st)
  else
    let tar := src.tarData
    let comp := compress tar
    let meta : UserMeta :=
      { user_id := user_id, description := description,
        size := tar.length, compressed_size := comp.length,
        offset := st.current_offset,
        file_count := src.filesWithSizes.length,
        files := src.filesWithSizes, checksum := hash tar,
        quota_mb := quota_mb, created_at := now, updated_at := now,
        version := 1 }
    (true,
     { users := dictInsert st.users user_id meta,
       blob_data := st.blob_data ++ comp,
       current_offset := st.current_offset + comp.length })

/-- Set the version counter of the entry stored under a key, modeling the
version assignment after a merge update. -/
def dictSetVersion (l : List (String × UserMeta)) (k : String) (v : Nat) :
    List (String × UserMeta) :=
  l.map (fun p => if p.1 == k then (p.1, { p.2 with version := v }) else p)

/-- The update_user method of UserDataBlobBuilder. Replace mode deletes the
old index entry and re-adds the user from the new source; merge mode does
the same but afterwards sets the version counter to the old counter plus
one when the re-add succeeded. In both modes the deletion happens before
the re-add is attempted, and a failing re-add leaves the entry deleted. -/
def update_user (compress : List Nat → List Nat) (hash : List Nat → String)
    (st : UserState) (user_id : String) (src : Source) (mode : String)
    (now : String) : Bool × UserState :=
  if hasKey st.users user_id = false then (false, st)
  else if mode == ("replace") then
    let st2 : UserState := { st with users := dictErase st.users user_id }
    add_user compress hash st2 user_id src ("") none now
  else if mode == ("merge") then
    let oldv := match lookupKey st.users user_id with
      | some m => m.version
      | none => 1
    let st2 : UserState := { st with users := dictErase st.users user_id }
    let r := add_user compress hash st2 user_id src ("") none now
    if r.1 then
      (true, { r.2 with users := dictSetVersion r.2.users user_id (oldv + 1) })
    else (false, r.2)
  else (false, st)

/-- The remove_user method of UserDataBlobBuilder: delete the index entry
only; the payload buffer and the cursor are untouched, so the stored bytes
of the removed user stay physically present. -/
def remove_user (st : UserState) (user_id : String) : Bool × UserState :=
  if hasKey st.users user_id = false then (false, st)
  else (true, { st with users := dictErase st.users user_id })

/-- Json encoding of one file record of the user manifest. -/
def jsonUserFile (p : String × Nat) : List Nat :=
  jObj [jField ("path") (jStr p.1), jField ("size") (natDigits p.2)]

/-- Json encoding of one user metadata dict in insertion order. -/
def jsonUserMeta (m : UserMeta) : List Nat :=
  jObj [jField ("user_id") (jStr m.user_id),
        jField ("description") (jStr m.description),
        jField ("size") (natDigits m.size),
        jField ("compressed_size") (natDigits m.compressed_size),
        jField ("offset") (natDigits m.offset),
        jField ("file_count") (natDigits m.file_count),
        jField ("files") (jArr (m.files.map jsonUserFile)),
        jField ("checksum") (jStr m.checksum),
        jField ("quota_mb") (jOptNat m.quota_mb),
        jField ("created_at") (jStr m.created_at),
        jField ("updated_at") (jStr m.updated_at),
        jField ("version") (natDigits m.version)]

/-- The index dict that the build method of userdata-blob-builder.py
serializes: integer format version, blob type tag, creation time, user
count, users mapping. -/
def jsonUserIndex (now : String) (users : List (String × UserMeta)) : List Nat :=
  jObj [jField ("version") (natDigits 1),
        jField ("blob_type") (jStr ("userdata")),
        jField ("created_at") (jStr now),
        jField ("user_count") (natDigits users.length),
        jField ("users") (jObj (users.map (fun p => jField p.1 (jsonUserMeta p.2))))]

/-- The magic tag of the user data blob. -/
def USER_MAGIC : List Nat := utf8 ("USERBLOB")

/-- The build method of UserDataBlobBuilder: magic bytes, two byte version,
four byte index size, index bytes, payload buffer. -/
def userdataBuild (now : String) (st : UserState) : List Nat :=
  let indexBytes := jsonUserIndex now st.users
  USER_MAGIC ++ u16le 1 ++ u32le indexBytes.length ++ indexBytes ++ st.blob_data

/-- Offset and compressed size pairs of the entries of an index, in
insertion order, the raw material of the offset contiguity invariant. -/
def chainFrom (c : Nat) : List (Nat × Nat) → Bool
  | [] => true
  | (off, sz) :: t => (off == c) && chainFrom (c + sz) t

/-- Sum of the compressed sizes of a projected entry list. -/
def sumSizes (l : List (Nat × Nat)) : Nat := (l.map (fun p => p.2)).sum

/-- Projection of the manager apps dict to offset and size pairs. -/
def appPairs (l : List (String × AppMeta)) : List (Nat × Nat) :=
  l.map (fun p => (p.2.offset, p.2.compressed_size))

/-- Projection of the builder apps dict to offset and size pairs. -/
def appBPairs (l : List (String × AppMetaB)) : List (Nat × Nat) :=
  l.map (fun p => (p.2.offset, p.2.compressed_size))

/-- Projection of the binaries dict to offset and size pairs. -/
def binPairs (l : List (String × BinMeta)) : List (Nat × Nat) :=
  l.map (fun p => (p.2.offset, p.2.compressed_size))

/-- Projection of the users dict to offset and size pairs. -/
def userPairs (l : List (String × UserMeta)) : List (Nat × Nat) :=
  l.map (fun p => (p.2.offset, p.2.compressed_size))

/-- The construction time layout invariant of app_blob_manager.py: the
first recorded offset is zero, every next offset is the previous offset
plus the previous compressed size, and the write cursor equals the sum of
all recorded compressed sizes. -/
def managerInv (st : AppState) : Prop :=
  chainFrom 0 (appPairs st.apps) = true ∧
    st.current_offset = sumSizes (appPairs st.apps)

/-- The same layout invariant for app-blob-builder.py. -/
def builderInv (st : AppBState) : Prop :=
  chainFrom 0 (appBPairs st.apps) = true ∧
    st.current_offset = sumSizes (appBPairs st.apps)

/-- The same layout invariant for binary-blob-builder.py. -/
def binInv (st : BinState) : Prop :=
  chainFrom 0 (binPairs st.binaries) = true ∧
    st.current_offset = sumSizes (binPairs st.binaries)

/-- The same layout invariant for userdata-blob-builder.py. -/
def userInv (st : UserState) : Prop :=
  chainFrom 0 (userPairs st.users) = true ∧
    st.current_offset = sumSizes (userPairs st.users)

/-! Helper lemmas about byte lists, dict operations and the resolver. -/

theorem take_len_eq (a b : List Nat) (n : Nat) (h : a.length = n) :
    (a ++ b).take n = a := by
  subst h; simp

theorem drop_len_eq (a b : List Nat) (n : Nat) (h : a.length = n) :
    (a ++ b).drop n = b := by
  subst h; simp

theorem leVal_u32le (n : Nat) (h : n < 4294967296) : leVal (u32le n) = n := by
  simp [leVal, u32le]; omega

theorem beq_string_symm (a b : String) : (a == b) = (b == a) := by
  by_cases h : a = b
  · subst h; rfl
  · rw [beq_eq_false_iff_ne.mpr h, beq_eq_false_iff_ne.mpr (Ne.symm h)]

theorem hasKey_of_lookup {l : List (String × α)} {k : String} {v : α}
    (h : lookupKey l k = some v) : hasKey l k = true := by
  induction l with
  | nil => simp [lookupKey] at h
  | cons p t ih =>
    obtain ⟨k1, v1⟩ := p
    simp only [lookupKey] at h
    simp only [hasKey, Bool.or_eq_true]
    by_cases hk : (k == k1) = true
    · exact Or.inl (by rw [beq_string_symm]; exact hk)
    · rw [if_neg hk] at h
      exact Or.inr (ih h)

theorem lookup_none_of_hasKey {l : List (String × α)} {k : String}
    (h : hasKey l k = false) : lookupKey l k = none := by
  induction l with
  | nil => rfl
  | cons p t ih =>
    obtain ⟨k1, v1⟩ := p
    simp only [hasKey, Bool.or_eq_false_iff] at h
    simp only [lookupKey]
    rw [if_neg (by rw [beq_string_symm]; simp [h.1]), ih h.2]

theorem hasKey_erase (l : List (String × α)) (k : String) :
    hasKey (dictErase l k) k = false := by
  induction l with
  | nil => rfl
  | cons p t ih =>
    obtain ⟨k1, v1⟩ := p
    simp only [dictErase, List.filter_cons] at ih ⊢
    cases h : k1 == k with
    | true => simpa [h] using ih
    | false => simpa [h, hasKey] using ih

theorem dictInsert_fresh {l : List (String × α)} {k : String} (v : α)
    (h : hasKey l k = false) : dictInsert l k v = l ++ [(k, v)] := by
  simp [dictInsert, h]

theorem lookup_append_self {l : List (String × α)} {k : String} (v : α)
    (h : hasKey l k = false) : lookupKey (l ++ [(k, v)]) k = some v := by
  induction l with
  | nil => simp [lookupKey]
  | cons p t ih =>
    obtain ⟨k1, v1⟩ := p
    simp only [hasKey, Bool.or_eq_false_iff] at h
    simp only [List.cons_append, lookupKey]
    rw [if_neg (by rw [beq_string_symm]; simp [h.1])]
    exact ih h.2

theorem lookup_insert_mem {l : List (String × α)} {k : String} (v : α)
    (h : hasKey l k = true) : lookupKey (dictInsert l k v) k = some v := by
  simp only [dictInsert, h, if_true]
  induction l with
  | nil => simp [hasKey] at h
  | cons p t ih =>
    obtain ⟨k1, v1⟩ := p
    simp only [List.map_cons]
    cases hk : k1 == k with
    | true =>
      rw [if_pos rfl]
      simp [lookupKey]
    | false =>
      rw [if_neg (by simp)]
      have hkk : (k == k1) = false := by rw [beq_string_symm]; exact hk
      simp only [lookupKey, hkk]
      simp only [hasKey, hk, Bool.false_or] at h
      simpa using ih h

theorem mapFst_setKey (l : List (String × α)) (k : String) (v : α) :
    (l.map (fun p => if p.1 == k then (k, v) else p)).map Prod.fst
      = l.map Prod.fst := by
  induction l with
  | nil => rfl
  | cons p t ih =>
    obtain ⟨k1, v1⟩ := p
    simp only [List.map_cons]
    cases hk : k1 == k with
    | true =>
      rw [if_pos rfl]
      have hke : k1 = k := eq_of_beq hk
      simp only [ih, hke]
    | false =>
      rw [if_neg (by simp)]
      simp only [ih]

theorem mapFst_insert_mem {l : List (String × α)} {k : String} (v : α)
    (h : hasKey l k = true) :
    (dictInsert l k v).map Prod.fst = l.map Prod.fst := by
  simp only [dictInsert, h, if_true]
  exact mapFst_setKey l k v

theorem lookup_setVersion (l : List (String × UserMeta)) (k : String) (n : Nat) :
    lookupKey (dictSetVersion l k n) k
      = Option.map (fun m => { m with version := n }) (lookupKey l k) := by
  induction l with
  | nil => rfl
  | cons p t ih =>
    obtain ⟨k1, m1⟩ := p
    simp only [dictSetVersion, List.map_cons]
    cases hk : k1 == k with
    | true =>
      rw [if_pos rfl]
      have hkk : (k == k1) = true := by rw [beq_string_symm]; exact hk
      simp [lookupKey, hkk]
    | false =>
      rw [if_neg (by simp)]
      have hkk : (k == k1) = false := by rw [beq_string_symm]; exact hk
      simp only [lookupKey, hkk]
      simpa [dictSetVersion] using ih

theorem sumSizes_append (l : List (Nat × Nat)) (p : Nat × Nat) :
    sumSizes (l ++ [p]) = sumSizes l + p.2 := by
  simp [sumSizes]

theorem chainFrom_append (s : Nat) :
    ∀ (c : Nat) (l : List (Nat × Nat)), chainFrom c l = true →
      chainFrom c (l ++ [(c + sumSizes l, s)]) = true := by
  intro c l
  induction l generalizing c with
  | nil => intro _; simp [chainFrom, sumSizes]
  | cons p t ih =>
    obtain ⟨off, sz⟩ := p
    intro h
    simp only [chainFrom, Bool.and_eq_true, beq_iff_eq] at h
    obtain ⟨h1, h2⟩ := h
    have := ih (c + sz) h2
    simp only [List.cons_append, chainFrom, Bool.and_eq_true, beq_iff_eq]
    refine ⟨h1, ?_⟩
    have hsum : c + sumSizes ((off, sz) :: t) = (c + sz) + sumSizes t := by
      simp [sumSizes]; omega
    rw [hsum]
    exact this

theorem inList_false_not_mem {k : String} :
    ∀ {l : List String}, inList k l = false → k ∉ l := by
  intro l
  induction l with
  | nil => intro _ h; exact absurd h (List.not_mem_nil k)
  | cons x t ih =>
    intro h hmem
    simp only [inList, Bool.or_eq_false_iff] at h
    rcases List.mem_cons.mp hmem with h1 | h1
    · subst h1
      simpa using h.1
    · exact ih h.2 h1

theorem inList_append_one (k x : String) (l : List String) :
    inList x (l ++ [k]) = (inList x l || (k == x)) := by
  induction l with
  | nil => simp [inList]
  | cons y t ih => simp [inList, ih, Bool.or_assoc]

theorem remWork_mono (idx : List (String × AppMeta)) (res : List String)
    (k : String) : remWork (res ++ [k]) idx ≤ remWork res idx := by
  induction idx with
  | nil => simp [remWork]
  | cons p t ih =>
    obtain ⟨k1, m1⟩ := p
    simp only [remWork]
    have h := inList_append_one k k1 res
    cases h1 : inList k1 res with
    | true =>
      rw [h, h1]
      simpa using ih
    | false =>
      rw [h, h1]
      cases h2 : k == k1 with
      | true => simp; omega
      | false => simp; omega

theorem remWork_decr (idx : List (String × AppMeta)) {res : List String}
    {k : String} {m : AppMeta} (hk : inList k res = false)
    (hl : lookupKey idx k = some m) :
    m.dependencies.length + remWork (res ++ [k]) idx ≤ remWork res idx := by
  induction idx with
  | nil => simp [lookupKey] at hl
  | cons p t ih =>
    obtain ⟨k1, m1⟩ := p
    simp only [lookupKey] at hl
    simp only [remWork, inList_append_one]
    cases hkk : k == k1 with
    | true =>
      rw [if_pos hkk] at hl
      have hm : m1 = m := by injection hl
      have hk1 : k1 = k := (eq_of_beq hkk).symm
      have hmono := remWork_mono t res k
      simp [hk1, hk, hm]
      omega
    | false =>
      rw [if_neg (by simp [hkk])] at hl
      have hih := ih hl
      cases h1 : inList k1 res with
      | true => simp [hkk, h1]; omega
      | false => simp [hkk, h1]; omega

theorem resolveLoop_total (idx : List (String × AppMeta)) :
    ∀ (fuel : Nat) (toP res : List String),
      toP.length + remWork res idx ≤ fuel →
      (resolveLoop idx fuel toP res).isSome = true := by
  intro fuel
  induction fuel with
  | zero =>
    intro toP res h
    cases toP with
    | nil => simp [resolveLoop]
    | cons k rest => simp [List.length_cons] at h
  | succ f ih =>
    intro toP res h
    cases toP with
    | nil => simp [resolveLoop]
    | cons k rest =>
      simp only [resolveLoop]
      cases hk : inList k res with
      | true =>
        rw [if_pos rfl]
        apply ih
        simp only [List.length_cons] at h
        omega
      | false =>
        rw [if_neg (by simp)]
        cases hl : lookupKey idx k with
        | none =>
          apply ih
          simp only [List.length_cons] at h
          omega
        | some m =>
          apply ih
          have hdec := remWork_decr idx hk hl
          have hfil : (m.dependencies.filter
              (fun d => !(inList d (res ++ [k])))).length
                ≤ m.dependencies.length := List.length_filter_le _ _
          simp only [List.length_append, List.length_cons] at h ⊢
          omega

theorem resolveLoop_nodup (idx : List (String × AppMeta)) :
    ∀ (fuel : Nat) (toP res out : List String), res.Nodup →
      resolveLoop idx fuel toP res = some out → out.Nodup := by
  intro fuel
  induction fuel with
  | zero =>
    intro toP res out hres h
    cases toP with
    | nil =>
      simp only [resolveLoop, Option.some_inj] at h
      exact h ▸ hres
    | cons k rest => simp [resolveLoop] at h
  | succ f ih =>
    intro toP res out hres h
    cases toP with
    | nil =>
      simp only [resolveLoop, Option.some_inj] at h
      exact h ▸ hres
    | cons k rest =>
      simp only [resolveLoop] at h
      cases hk : inList k res with
      | true =>
        rw [hk, if_pos rfl] at h
        exact ih rest res out hres h
      | false =>
        rw [hk, if_neg (by simp)] at h
        cases hl : lookupKey idx k with
        | none =>
          rw [hl] at h
          exact ih rest res out hres h
        | some m =>
          rw [hl] at h
          apply ih _ _ out _ h
          rw [← List.concat_eq_append]
          exact List.Nodup.concat (inList_false_not_mem hk) hres

theorem addApplicationB_eq (compress : List Nat → List Nat)
    (hash : List Nat → String) (st : AppBState) (k n : String) (src : Source)
    (ver : String) (deps : List String) (de now : String)
    (hp : src.pathExists = true) :
    addApplicationB compress hash st k n src ver deps de now
      = (true,
         { apps := dictInsert st.apps k
             { key := k, name := n, version := ver,
               size := src.tarData.length,
               compressed_size := (compress src.tarData).length,
               offset := st.current_offset, dependencies := deps,
               files := src.fileNames, checksum := hash src.tarData,
               created_at := now },
           blob_data := st.blob_data ++ compress src.tarData,
           current_offset := st.current_offset + (compress src.tarData).length }) := by
  unfold addApplicationB
  rw [hp]
  rfl

theorem addApplicationB_nosrc (compress : List Nat → List Nat)
    (hash : List Nat → String) (st : AppBState) (k n : String) (src : Source)
    (ver : String) (deps : List String) (de now : String)
    (hp : src.pathExists = false) :
    addApplicationB compress hash st k n src ver deps de now = (false, st) := by
  unfold addApplicationB
  rw [hp]
  rfl

theorem add_binary_dup (compress : List Nat → List Nat)
    (hash : List Nat → String) (st : BinState) (k : String) (src : Source)
    (pv : List String) (ver de : String) (ev : List (String × String))
    (deps : List String) (ar ost now : String)
    (hk : hasKey st.binaries k = true) :
    add_binary compress hash st k src pv ver de ev deps ar ost now
      = (false, st) := by
  unfold add_binary
  rw [hk]
  rfl

theorem add_binary_nosrc (compress : List Nat → List Nat)
    (hash : List Nat → String) (st : BinState) (k : String) (src : Source)
    (pv : List String) (ver de : String) (ev : List (String × String))
    (deps : List String) (ar ost now : String)
    (hk : hasKey st.binaries k = false) (hp : src.pathExists = false) :
    add_binary compress hash st k src pv ver de ev deps ar ost now
      = (false, st) := by
  unfold add_binary
  rw [hk, hp]
  rfl

theorem add_binary_eq (compress : List Nat → List Nat)
    (hash : List Nat → String) (st : BinState) (k : String) (src : Source)
    (pv : List String) (ver de : String) (ev : List (String × String))
    (deps : List String) (ar ost now : String)
    (hk : hasKey st.binaries k = false) (hp : src.pathExists = true) :
    add_binary compress hash st k src pv ver de ev deps ar ost now
      = (true,
         { binaries := dictInsert st.binaries k
             { key := k, version := ver, description := de,
               size := src.tarData.length,
               compressed_size := (compress src.tarData).length,
               offset := st.current_offset, checksum := hash src.tarData,
               provides := pv, executables := src.executables,
               libraries := src.libraries, dependencies := deps,
               env_vars := ev, architecture := ar, os_type := ost,
               created_at := now },
           blob_data := st.blob_data ++ compress src.tarData,
           current_offset := st.current_offset + (compress src.tarData).length }) := by
  unfold add_binary
  rw [hk, hp]
  rfl

theorem add_user_dup (compress : List Nat → List Nat)
    (hash : List Nat → String) (st : UserState) (uid : String) (src : Source)
    (de : String) (q : Option Nat) (now : String)
    (hk : hasKey st.users uid = true) :
    add_user compress hash st uid src de q now = (false, st) := by
  unfold add_user
  rw [hk]
  rfl

theorem add_user_nosrc (compress : List Nat → List Nat)
    (hash : List Nat → String) (st : UserState) (uid : String) (src : Source)
    (de : String) (q : Option Nat) (now : String)
    (hk : hasKey st.users uid = false) (hp : src.pathExists = false) :
    add_user compress hash st uid src de q now = (false, st) := by
  unfold add_user
  rw [hk, hp]
  rfl

theorem add_user_eq (compress : List Nat → List Nat)
    (hash : List Nat → String) (st : UserState) (uid : String) (src : Source)
    (de : String) (q : Option Nat) (now : String)
    (hk : hasKey st.users uid = false) (hp : src.pathExists = true) :
    add_user compress hash st uid src de q now
      = (true,
         { users := dictInsert st.users uid
             { user_id := uid, description := de,
               size := src.tarData.length,
               compressed_size := (compress src.tarData).length,
               offset := st.current_offset,
               file_count := src.filesWithSizes.length,
               files := src.filesWithSizes, checksum := hash src.tarData,
               quota_mb := q, created_at := now, updated_at := now,
               version := 1 },
           blob_data := st.blob_data ++ compress src.tarData,
           current_offset := st.current_offset + (compress src.tarData).length }) := by
  unfold add_user
  rw [hk, hp]
  rfl

theorem update_user_merge_eq (compress : List Nat → List Nat)
    (hash : List Nat → String) (st : UserState) (uid : String) (src : Source)
    (now : String) (m : UserMeta)
    (hm : lookupKey st.users uid = some m) (hp : src.pathExists = true) :
    update_user compress hash st uid src ("merge") now
      = (true,
         { users := dictSetVersion
             (dictInsert (dictErase st.users uid) uid
               { user_id := uid, description := (""),
                 size := src.tarData.length,
                 compressed_size := (compress src.tarData).length,
                 offset := st.current_offset,
                 file_count := src.filesWithSizes.length,
                 files := src.filesWithSizes, checksum := hash src.tarData,
                 quota_mb := none, created_at := now, updated_at := now,
                 version := 1 }) uid (m.version + 1),
           blob_data := st.blob_data ++ compress src.tarData,
           current_offset := st.current_offset + (compress src.tarData).length }) := by
  have hk := hasKey_of_lookup hm
  have hke := hasKey_erase st.users uid
  simp only [update_user, add_user]
  rw [hk, hm, hke, hp]
  rfl

theorem remove_user_eq (st : UserState) (uid : String)
    (h : hasKey st.users uid = true) :
    remove_user st uid = (true, { st with users := dictErase st.users uid }) := by
  unfold remove_user
  rw [h]
  rfl

theorem header_layout (magic idx blob : List Nat) (hm : magic.length = 8)
    (hlen : idx.length < 4294967296) :
    (magic ++ u16le 1 ++ u32le idx.length ++ idx ++ blob).take 8 = magic
    ∧ leVal (((magic ++ u16le 1 ++ u32le idx.length ++ idx ++ blob).drop 8).take 2) = 1
    ∧ leVal (((magic ++ u16le 1 ++ u32le idx.length ++ idx ++ blob).drop 10).take 4)
        = idx.length
    ∧ ((magic ++ u16le 1 ++ u32le idx.length ++ idx ++ blob).drop 14).take idx.length
        = idx
    ∧ (magic ++ u16le 1 ++ u32le idx.length ++ idx ++ blob).drop (14 + idx.length)
        = blob := by
  have e8 : magic ++ u16le 1 ++ u32le idx.length ++ idx ++ blob
      = magic ++ (u16le 1 ++ (u32le idx.length ++ (idx ++ blob))) := by
    simp [List.append_assoc]
  have e10 : magic ++ u16le 1 ++ u32le idx.length ++ idx ++ blob
      = (magic ++ u16le 1) ++ (u32le idx.length ++ (idx ++ blob)) := by
    simp [List.append_assoc]
  have e14 : magic ++ u16le 1 ++ u32le idx.length ++ idx ++ blob
      = (magic ++ u16le 1 ++ u32le idx.length) ++ (idx ++ blob) := by
    simp [List.append_assoc]
  have l10 : (magic ++ u16le 1).length = 10 := by simp [u16le, hm]
  have l14 : (magic ++ u16le 1 ++ u32le idx.length).length = 14 := by
    simp [u16le, u32le, hm]
  have l14b : (magic ++ u16le 1 ++ u32le idx.length ++ idx).length
      = 14 + idx.length := by
    simp [u16le, u32le, hm]; omega
  refine ⟨?_, ?_, ?_, ?_, ?_⟩
  · rw [e8]
    exact take_len_eq magic _ 8 hm
  · rw [e8, drop_len_eq magic _ 8 hm, take_len_eq (u16le 1) _ 2 rfl]
    decide
  · rw [e10, drop_len_eq _ _ 10 l10, take_len_eq (u32le idx.length) _ 4 rfl]
    exact leVal_u32le idx.length hlen
  · rw [e14, drop_len_eq _ _ 14 l14, take_len_eq idx blob idx.length rfl]
  · exact drop_len_eq _ blob (14 + idx.length) l14b

theorem header_layout_nover (magic idx blob : List Nat) (hm : magic.length = 8)
    (hlen : idx.length < 4294967296) :
    (magic ++ u32le idx.length ++ idx ++ blob).take 8 = magic
    ∧ leVal (((magic ++ u32le idx.length ++ idx ++ blob).drop 8).take 4) = idx.length
    ∧ ((magic ++ u32le idx.length ++ idx ++ blob).drop 12).take idx.length = idx
    ∧ (magic ++ u32le idx.length ++ idx ++ blob).drop (12 + idx.length) = blob := by
  have e8 : magic ++ u32le idx.length ++ idx ++ blob
      = magic ++ (u32le idx.length ++ (idx ++ blob)) := by
    simp [List.append_assoc]
  have e12 : magic ++ u32le idx.length ++ idx ++ blob
      = (magic ++ u32le idx.length) ++ (idx ++ blob) := by
    simp [List.append_assoc]
  have l12 : (magic ++ u32le idx.length).length = 12 := by simp [u32le, hm]
  have l12b : (magic ++ u32le idx.length ++ idx).length = 12 + idx.length := by
    simp [u32le, hm]; omega
  refine ⟨?_, ?_, ?_, ?_⟩
  · rw [e8]
    exact take_len_eq magic _ 8 hm
  · rw [e8, drop_len_eq magic _ 8 hm, take_len_eq (u32le idx.length) _ 4 rfl]
    exact leVal_u32le idx.length hlen
  · rw [e12, drop_len_eq _ _ 12 l12, take_len_eq idx blob idx.length rfl]
  · exact drop_len_eq _ blob (12 + idx.length) l12b

theorem inv_step (P : List (Nat × Nat)) (c s : Nat)
    (h1 : chainFrom 0 P = true) (h2 : c = sumSizes P) :
    chainFrom 0 (P ++ [(c, s)]) = true ∧ c + s = sumSizes (P ++ [(c, s)]) := by
  constructor
  · rw [h2]
    have := chainFrom_append s 0 P h1
    simpa using this
  · rw [sumSizes_append]
    omega

theorem appPairs_append (l : List (String × AppMeta)) (k : String) (m : AppMeta) :
    appPairs (l ++ [(k, m)]) = appPairs l ++ [(m.offset, m.compressed_size)] := by
  simp [appPairs]

theorem appBPairs_append (l : List (String × AppMetaB)) (k : String) (m : AppMetaB) :
    appBPairs (l ++ [(k, m)]) = appBPairs l ++ [(m.offset, m.compressed_size)] := by
  simp [appBPairs]

theorem binPairs_append (l : List (String × BinMeta)) (k : String) (m : BinMeta) :
    binPairs (l ++ [(k, m)]) = binPairs l ++ [(m.offset, m.compressed_size)] := by
  simp [binPairs]

theorem userPairs_append (l : List (String × UserMeta)) (k : String) (m : UserMeta) :
    userPairs (l ++ [(k, m)]) = userPairs l ++ [(m.offset, m.compressed_size)] := by
  simp [userPairs]

/-! Claim theorems. -/

/-- Claim C10: resolve_dependencies terminates for every finite index and
every request list, cyclic dependency graphs and repeated request keys
included, and each key occurs at most once in the returned result. The loop
is modeled with explicit fuel; the theorem shows the fuel chosen in
resolve_dependencies always suffices, so the breadth first traversal always
returns, and that the returned list is duplicate free. -/
theorem c10_resolve_terminates_and_nodup (idx : List (String × AppMeta))
    (app_keys : List String) :
    ∃ out, resolve_dependencies idx app_keys = some out ∧ out.Nodup := by
  have h := resolveLoop_total idx (app_keys.length + remWork [] idx)
    app_keys [] (by omega)
  rw [Option.isSome_iff_exists] at h
  obtain ⟨out, hout⟩ := h
  exact ⟨out, hout,
    resolveLoop_nodup idx (app_keys.length + remWork [] idx) app_keys [] out
      List.nodup_nil hout⟩

/-- Claim C5: over an index holding exactly the entries A with dependency
list B, B with dependency list C and C with no dependencies, resolving the
request A yields exactly the keys A, B and C; resolving the already
resolved closure returns the same list again, so repeated runs agree; a
requested key absent from the index is skipped with a warning and the run
still returns; and an entry whose dependency names a nonexistent key Z
resolves to just itself. -/
theorem c5_resolve_chain_and_missing (mA mB mC : AppMeta)
    (hA : mA.dependencies = [("B")])
    (hB : mB.dependencies = [("C")])
    (hC : mC.dependencies = []) :
    (resolve_dependencies [(("A"), mA), (("B"), mB), (("C"), mC)] [("A")]
        = some [("A"), ("B"), ("C")]
      ∧ resolve_dependencies [(("A"), mA), (("B"), mB), (("C"), mC)]
          [("A"), ("B"), ("C")] = some [("A"), ("B"), ("C")])
    ∧ (∀ mD : AppMeta, mD.dependencies = [] →
        resolve_dependencies [(("A"), mD)] [("Q"), ("A")] = some [("A")])
    ∧ (∀ mZ : AppMeta, mZ.dependencies = [("Z")] →
        resolve_dependencies [(("A"), mZ)] [("A")] = some [("A")]) := by
  obtain ⟨fA1, fA2, fA3, fA4, fA5, fA6, dA, fA8, fA9⟩ := mA
  obtain ⟨fB1, fB2, fB3, fB4, fB5, fB6, dB, fB8, fB9⟩ := mB
  obtain ⟨fC1, fC2, fC3, fC4, fC5, fC6, dC, fC8, fC9⟩ := mC
  have hA2 : dA = [("B")] := hA
  have hB2 : dB = [("C")] := hB
  have hC2 : dC = [] := hC
  subst hA2; subst hB2; subst hC2
  refine ⟨⟨rfl, rfl⟩, ?_, ?_⟩
  · intro mD hD
    obtain ⟨fD1, fD2, fD3, fD4, fD5, fD6, dD, fD8, fD9⟩ := mD
    have hD2 : dD = [] := hD
    subst hD2
    rfl
  · intro mZ hZ
    obtain ⟨fZ1, fZ2, fZ3, fZ4, fZ5, fZ6, dZ, fZ8, fZ9⟩ := mZ
    have hZ2 : dZ = [("Z")] := hZ
    subst hZ2
    rfl

/-- Witness for claim C5 at concrete metadata records. -/
theorem c5_resolve_chain_and_missing_witness :
    (resolve_dependencies
        [(("A"), { key := ("A"), name := (""), version := (""), size := 0,
                   compressed_size := 0, offset := 0,
                   dependencies := [("B")], files := [], checksum := ("") }),
         (("B"), { key := ("B"), name := (""), version := (""), size := 0,
                   compressed_size := 0, offset := 0,
                   dependencies := [("C")], files := [], checksum := ("") }),
         (("C"), { key := ("C"), name := (""), version := (""), size := 0,
                   compressed_size := 0, offset := 0,
                   dependencies := [], files := [], checksum := ("") })]
        [("A")] = some [("A"), ("B"), ("C")]
      ∧ resolve_dependencies
        [(("A"), { key := ("A"), name := (""), version := (""), size := 0,
                   compressed_size := 0, offset := 0,
                   dependencies := [("B")], files := [], checksum := ("") }),
         (("B"), { key := ("B"), name := (""), version := (""), size := 0,
                   compressed_size := 0, offset := 0,
                   dependencies := [("C")], files := [], checksum := ("") }),
         (("C"), { key := ("C"), name := (""), version := (""), size := 0,
                   compressed_size := 0, offset := 0,
                   dependencies := [], files := [], checksum := ("") })]
        [("A"), ("B"), ("C")] = some [("A"), ("B"), ("C")])
    ∧ (∀ mD : AppMeta, mD.dependencies = [] →
        resolve_dependencies [(("A"), mD)] [("Q"), ("A")] = some [("A")])
    ∧ (∀ mZ : AppMeta, mZ.dependencies = [("Z")] →
        resolve_dependencies [(("A"), mZ)] [("A")] = some [("A")]) :=
  c5_resolve_chain_and_missing _ _ _ rfl rfl rfl

/-- Claim C2, the divergence theorem: extract_to_memory of
app_blob_manager.py returns the decompressed payload bytes whatever
checksum string is stored in the index entry, so it cannot be comparing the
digest: with an identity decompressor the entry below yields its payload
slice for every stored checksum value c, including values that match no
digest of the returned bytes. -/
theorem c2_extract_to_memory_skips_verification (c : String) :
    extract_to_memory (fun bs => some bs)
      { index := [(("a"),
          { key := ("a"), name := ("a"), version := ("1"), size := 3,
            compressed_size := 3, offset := 0, dependencies := [],
            files := [], checksum := c })],
        payload := [1, 2, 3] } ("a") = some [1, 2, 3] := rfl

/-- Claim C1 as amended: the all in one application blob build and the user
data blob build write MagicTag, FormatVersion as unsigned sixteen bit one,
IndexLength as unsigned thirty two bit, exactly IndexLength index bytes, and
then the payload region starting at byte 8+2+4+IndexLength; the build of
app_blob_manager.py however writes no FormatVersion field at all: its
IndexLength sits directly at byte 8 and its payload region starts at byte
8+4+IndexLength. -/
theorem c1_layout (now : String) (st1 : AppState) (st2 : AppBState)
    (st3 : UserState)
    (h1 : (jsonManagerIndex st1.apps).length < 4294967296)
    (h2 : (jsonBuilderIndex now st2.apps).length < 4294967296)
    (h3 : (jsonUserIndex now st3.users).length < 4294967296) :
    ((builderBuild now st2).take 8 = APP_MAGIC
      ∧ leVal (((builderBuild now st2).drop 8).take 2) = 1
      ∧ leVal (((builderBuild now st2).drop 10).take 4)
          = (jsonBuilderIndex now st2.apps).length
      ∧ ((builderBuild now st2).drop 14).take
            (jsonBuilderIndex now st2.apps).length
          = jsonBuilderIndex now st2.apps
      ∧ (builderBuild now st2).drop
            (14 + (jsonBuilderIndex now st2.apps).length)
          = st2.blob_data)
    ∧ ((userdataBuild now st3).take 8 = USER_MAGIC
      ∧ leVal (((userdataBuild now st3).drop 8).take 2) = 1
      ∧ leVal (((userdataBuild now st3).drop 10).take 4)
          = (jsonUserIndex now st3.users).length
      ∧ ((userdataBuild now st3).drop 14).take
            (jsonUserIndex now st3.users).length
          = jsonUserIndex now st3.users
      ∧ (userdataBuild now st3).drop
            (14 + (jsonUserIndex now st3.users).length)
          = st3.blob_data)
    ∧ ((managerBuild st1).take 8 = APP_MAGIC
      ∧ leVal (((managerBuild st1).drop 8).take 4)
          = (jsonManagerIndex st1.apps).length
      ∧ ((managerBuild st1).drop 12).take (jsonManagerIndex st1.apps).length
          = jsonManagerIndex st1.apps
      ∧ (managerBuild st1).drop (12 + (jsonManagerIndex st1.apps).length)
          = st1.blob_data) := by
  refine ⟨?_, ?_, ?_⟩
  · exact header_layout APP_MAGIC (jsonBuilderIndex now st2.apps)
      st2.blob_data (by decide) h2
  · exact header_layout USER_MAGIC (jsonUserIndex now st3.users)
      st3.blob_data (by decide) h3
  · exact header_layout_nover APP_MAGIC (jsonManagerIndex st1.apps)
      st1.blob_data (by decide) h1

/-- Witness for claim C1 at the empty builder states. -/
theorem c1_layout_witness :
    ((jsonManagerIndex emptyAppState.apps).length < 4294967296
      ∧ (jsonBuilderIndex ("t") emptyAppBState.apps).length < 4294967296
      ∧ (jsonUserIndex ("t") emptyUserState.users).length < 4294967296)
    ∧ (managerBuild emptyAppState).drop
        (12 + (jsonManagerIndex emptyAppState.apps).length)
      = emptyAppState.blob_data :=
  ⟨⟨by decide, by decide, by decide⟩,
    (c1_layout ("t") emptyAppState emptyAppBState emptyUserState
      (by decide) (by decide) (by decide)).2.2.2.2.2⟩

/-- Counterexample for claim C1 as stated: the build of
app_blob_manager.py contains no FormatVersion field between the magic and
the index length; at the empty builder state the two bytes after the magic
decode to the low half of the index length, not to the format version
one. -/
theorem c1_layout_counterexample :
    leVal (((managerBuild emptyAppState).drop 8).take 2) ≠ 1 := by decide

/-- Claim C4: extract_application with verification enabled fails on every
payload corruption that makes decompression fail or makes the recomputed
digest differ from the stored checksum, and in that case performs no file
system effect at all: no directory under the target directory is created
and nothing is unpacked, because the method returns False before makedirs
and extractall run. -/
theorem c4_extract_verify_fails_clean
    (decompress : List Nat → Option (List Nat)) (hash : List Nat → String)
    (st : ExtractorState) (app_key target_dir : String) (md : AppMeta)
    (hmem : lookupKey st.index app_key = some md)
    (hbad : decompress ((st.payload.drop md.offset).take md.compressed_size)
          = none
        ∨ ∀ tar, decompress ((st.payload.drop md.offset).take
            md.compressed_size) = some tar → hash tar ≠ md.checksum) :
    extract_application decompress hash st app_key target_dir true
      = (false, []) := by
  cases hdec : decompress ((st.payload.drop md.offset).take md.compressed_size) with
  | none => simp [extract_application, hmem, hdec]
  | some tar =>
    rcases hbad with hbad | hbad
    · rw [hdec] at hbad
      exact absurd hbad (by simp)
    · have hne := hbad tar hdec
      simp [extract_application, hmem, hdec, hne]

/-- Witness for claim C4 at a concrete corrupted entry. -/
theorem c4_extract_verify_fails_clean_witness :
    lookupKey
        ([(("a"), ({ key := ("a"), name := ("a"), version := ("1"), size := 1,
                     compressed_size := 1, offset := 0, dependencies := [],
                     files := [], checksum := ("deadbeef") } : AppMeta))]) ("a")
      = some ({ key := ("a"), name := ("a"), version := ("1"), size := 1,
                compressed_size := 1, offset := 0, dependencies := [],
                files := [], checksum := ("deadbeef") } : AppMeta)
    ∧ extract_application (fun _ => none) (fun _ => (""))
        ({ index := [(("a"),
            ({ key := ("a"), name := ("a"), version := ("1"), size := 1,
               compressed_size := 1, offset := 0, dependencies := [],
               files := [], checksum := ("deadbeef") } : AppMeta))],
           payload := [9] } : ExtractorState) ("a") ("dest") true
        = (false, []) :=
  ⟨by decide,
    c4_extract_verify_fails_clean (fun _ => none) (fun _ => (""))
      ({ index := [(("a"),
          ({ key := ("a"), name := ("a"), version := ("1"), size := 1,
             compressed_size := 1, offset := 0, dependencies := [],
             files := [], checksum := ("deadbeef") } : AppMeta))],
         payload := [9] } : ExtractorState) ("a") ("dest")
      ({ key := ("a"), name := ("a"), version := ("1"), size := 1,
         compressed_size := 1, offset := 0, dependencies := [],
         files := [], checksum := ("deadbeef") } : AppMeta) (by decide)
      (Or.inl rfl)⟩

/-- Claim C3 as amended: only the binary catalog rejects a duplicate key,
returning failure before any mutation so the builder state is unchanged;
both application catalog add functions perform no duplicate check: they
replace the metadata stored under the key in place, keeping the key order,
record the fresh metadata at the current write cursor with the digest of
the new source archive, and append the compressed payload bytes again. -/
theorem c3_duplicate_key (compress : List Nat → List Nat)
    (hash : List Nat → String) :
    (∀ (st : BinState) (k : String) (src : Source) (pv : List String)
        (ver de : String) (ev : List (String × String)) (deps : List String)
        (ar ost now : String), hasKey st.binaries k = true →
        add_binary compress hash st k src pv ver de ev deps ar ost now
          = (false, st))
    ∧ (∀ (st : AppState) (k n : String) (src : Source) (ver : String)
        (deps : List String) (m : AppMeta), lookupKey st.apps k = some m →
        (add_application compress hash st k n src ver deps).apps.map Prod.fst
            = st.apps.map Prod.fst
          ∧ lookupKey (add_application compress hash st k n src ver deps).apps k
              = some { key := k, name := n, version := ver,
                       size := src.tarData.length,
                       compressed_size := (compress src.tarData).length,
                       offset := st.current_offset, dependencies := deps,
                       files := src.fileNames, checksum := hash src.tarData }
          ∧ (add_application compress hash st k n src ver deps).blob_data
              = st.blob_data ++ compress src.tarData)
    ∧ (∀ (st : AppBState) (k n : String) (src : Source) (ver : String)
        (deps : List String) (de now : String) (m : AppMetaB),
        lookupKey st.apps k = some m → src.pathExists = true →
        (addApplicationB compress hash st k n src ver deps de now).1 = true
          ∧ (addApplicationB compress hash st k n src ver deps de now).2.apps.map
                Prod.fst = st.apps.map Prod.fst
          ∧ lookupKey
                (addApplicationB compress hash st k n src ver deps de now).2.apps k
              = some { key := k, name := n, version := ver,
                       size := src.tarData.length,
                       compressed_size := (compress src.tarData).length,
                       offset := st.current_offset, dependencies := deps,
                       files := src.fileNames, checksum := hash src.tarData,
                       created_at := now }
          ∧ (addApplicationB compress hash st k n src ver deps de now).2.blob_data
              = st.blob_data ++ compress src.tarData) := by
  refine ⟨?_, ?_, ?_⟩
  · intro st k src pv ver de ev deps ar ost now hk
    exact add_binary_dup compress hash st k src pv ver de ev deps ar ost now hk
  · intro st k n src ver deps m hm
    have hk := hasKey_of_lookup hm
    exact ⟨mapFst_insert_mem _ hk, lookup_insert_mem _ hk, rfl⟩
  · intro st k n src ver deps de now m hm hp
    have hk := hasKey_of_lookup hm
    rw [addApplicationB_eq compress hash st k n src ver deps de now hp]
    exact ⟨rfl, mapFst_insert_mem _ hk, lookup_insert_mem _ hk, rfl⟩

/-- Witness for claim C3 at a one entry binary catalog. -/
theorem c3_duplicate_key_witness :
    hasKey ([(("k"),
        ({ key := ("k"), version := ("1"), description := (""), size := 1,
           compressed_size := 1, offset := 0, checksum := ("c"),
           provides := [], executables := [], libraries := [],
           dependencies := [], env_vars := [], architecture := ("x"),
           os_type := ("l"), created_at := ("t") } : BinMeta))]) ("k") = true
    ∧ add_binary (fun bs => bs) (fun _ => ("c"))
        ({ binaries := [(("k"),
            ({ key := ("k"), version := ("1"), description := (""), size := 1,
               compressed_size := 1, offset := 0, checksum := ("c"),
               provides := [], executables := [], libraries := [],
               dependencies := [], env_vars := [], architecture := ("x"),
               os_type := ("l"), created_at := ("t") } : BinMeta))],
           blob_data := [7], current_offset := 1 } : BinState) ("k")
        ({ pathExists := true, tarData := [8], fileNames := [],
           filesWithSizes := [], executables := [], libraries := [] } : Source)
        [] ("1") ("") [] [] ("x") ("l") ("t")
      = (false,
         ({ binaries := [(("k"),
             ({ key := ("k"), version := ("1"), description := (""), size := 1,
                compressed_size := 1, offset := 0, checksum := ("c"),
                provides := [], executables := [], libraries := [],
                dependencies := [], env_vars := [], architecture := ("x"),
                os_type := ("l"), created_at := ("t") } : BinMeta))],
            blob_data := [7], current_offset := 1 } : BinState)) :=
  ⟨by decide,
    (c3_duplicate_key (fun bs => bs) (fun _ => ("c"))).1
      ({ binaries := [(("k"),
          ({ key := ("k"), version := ("1"), description := (""), size := 1,
             compressed_size := 1, offset := 0, checksum := ("c"),
             provides := [], executables := [], libraries := [],
             dependencies := [], env_vars := [], architecture := ("x"),
             os_type := ("l"), created_at := ("t") } : BinMeta))],
         blob_data := [7], current_offset := 1 } : BinState) ("k")
      ({ pathExists := true, tarData := [8], fileNames := [],
         filesWithSizes := [], executables := [], libraries := [] } : Source)
      [] ("1") ("") [] [] ("x") ("l") ("t") (by decide)⟩

/-- Counterexample for claim C3 as stated: in the all in one application
blob builder a second add with the same key reports success and mutates the
state, replacing the stored metadata and appending payload bytes, instead
of failing and leaving the index and payload buffer unchanged. -/
theorem c3_duplicate_key_counterexample :
    (addApplicationB (fun bs => bs) (fun _ => ("h"))
        (addApplicationB (fun bs => bs) (fun _ => ("h")) emptyAppBState
          ("k") ("n")
          ({ pathExists := true, tarData := [7], fileNames := [],
             filesWithSizes := [], executables := [], libraries := [] } : Source)
          ("1") [] ("") ("t")).2
        ("k") ("n")
        ({ pathExists := true, tarData := [8, 9], fileNames := [],
           filesWithSizes := [], executables := [], libraries := [] } : Source)
        ("1") [] ("") ("t")).1 = true
    ∧ (addApplicationB (fun bs => bs) (fun _ => ("h"))
        (addApplicationB (fun bs => bs) (fun _ => ("h")) emptyAppBState
          ("k") ("n")
          ({ pathExists := true, tarData := [7], fileNames := [],
             filesWithSizes := [], executables := [], libraries := [] } : Source)
          ("1") [] ("") ("t")).2
        ("k") ("n")
        ({ pathExists := true, tarData := [8, 9], fileNames := [],
           filesWithSizes := [], executables := [], libraries := [] } : Source)
        ("1") [] ("") ("t")).2
      ≠ (addApplicationB (fun bs => bs) (fun _ => ("h")) emptyAppBState
          ("k") ("n")
          ({ pathExists := true, tarData := [7], fileNames := [],
             filesWithSizes := [], executables := [], libraries := [] } : Source)
          ("1") [] ("") ("t")).2 := by
  refine ⟨by decide, by decide⟩

/-- Claim C6: a merge mode update of an existing user with a source tree
whose add succeeds bumps the stored version counter by exactly one and
stores as checksum the digest of the archive of the new source tree. -/
theorem c6_update_merge_version_checksum (compress : List Nat → List Nat)
    (hash : List Nat → String) (st : UserState) (uid : String) (src : Source)
    (now : String) (m : UserMeta)
    (hm : lookupKey st.users uid = some m) (hp : src.pathExists = true) :
    (update_user compress hash st uid src ("merge") now).1 = true
    ∧ ∃ m2 : UserMeta,
        lookupKey (update_user compress hash st uid src ("merge") now).2.users
          uid = some m2
        ∧ m2.version = m.version + 1
        ∧ m2.checksum = hash src.tarData := by
  rw [update_user_merge_eq compress hash st uid src now m hm hp]
  have hke := hasKey_erase st.users uid
  refine ⟨rfl,
    ⟨{ user_id := uid, description := (""), size := src.tarData.length,
       compressed_size := (compress src.tarData).length,
       offset := st.current_offset, file_count := src.filesWithSizes.length,
       files := src.filesWithSizes, checksum := hash src.tarData,
       quota_mb := none, created_at := now, updated_at := now,
       version := m.version + 1 }, ?_, rfl, rfl⟩⟩
  rw [lookup_setVersion, dictInsert_fresh _ hke, lookup_append_self _ hke]
  rfl

/-- Witness for claim C6 at a one user store. -/
theorem c6_update_merge_version_checksum_witness :
    lookupKey ([(("u"),
        ({ user_id := ("u"), description := (""), size := 1,
           compressed_size := 1, offset := 0, file_count := 0, files := [],
           checksum := ("c"), quota_mb := none, created_at := ("t"),
           updated_at := ("t"), version := 1 } : UserMeta))]) ("u")
      = some ({ user_id := ("u"), description := (""), size := 1,
                compressed_size := 1, offset := 0, file_count := 0,
                files := [], checksum := ("c"), quota_mb := none,
                created_at := ("t"), updated_at := ("t"),
                version := 1 } : UserMeta)
    ∧ (update_user (fun bs => bs) (fun _ => ("d"))
        ({ users := [(("u"),
            ({ user_id := ("u"), description := (""), size := 1,
               compressed_size := 1, offset := 0, file_count := 0,
               files := [], checksum := ("c"), quota_mb := none,
               created_at := ("t"), updated_at := ("t"),
               version := 1 } : UserMeta))],
           blob_data := [7], current_offset := 1 } : UserState) ("u")
        ({ pathExists := true, tarData := [8], fileNames := [],
           filesWithSizes := [], executables := [], libraries := [] } : Source)
        ("merge") ("t2")).1 = true
    ∧ ∃ m2 : UserMeta,
        lookupKey (update_user (fun bs => bs) (fun _ => ("d"))
          ({ users := [(("u"),
              ({ user_id := ("u"), description := (""), size := 1,
                 compressed_size := 1, offset := 0, file_count := 0,
                 files := [], checksum := ("c"), quota_mb := none,
                 created_at := ("t"), updated_at := ("t"),
                 version := 1 } : UserMeta))],
             blob_data := [7], current_offset := 1 } : UserState) ("u")
          ({ pathExists := true, tarData := [8], fileNames := [],
             filesWithSizes := [], executables := [],
             libraries := [] } : Source) ("merge") ("t2")).2.users ("u")
          = some m2
        ∧ m2.version = 1 + 1
        ∧ m2.checksum = (fun _ : List Nat => ("d")) [8] := by
  refine ⟨by decide, ?_⟩
  exact c6_update_merge_version_checksum (fun bs => bs) (fun _ => ("d"))
    ({ users := [(("u"),
        ({ user_id := ("u"), description := (""), size := 1,
           compressed_size := 1, offset := 0, file_count := 0, files := [],
           checksum := ("c"), quota_mb := none, created_at := ("t"),
           updated_at := ("t"), version := 1 } : UserMeta))],
       blob_data := [7], current_offset := 1 } : UserState) ("u")
    ({ pathExists := true, tarData := [8], fileNames := [],
       filesWithSizes := [], executables := [], libraries := [] } : Source)
    ("t2")
    ({ user_id := ("u"), description := (""), size := 1,
       compressed_size := 1, offset := 0, file_count := 0, files := [],
       checksum := ("c"), quota_mb := none, created_at := ("t"),
       updated_at := ("t"), version := 1 } : UserMeta) (by decide) (by decide)

/-- Claim C9: update_user is not atomic on failure. For a store containing
the user and a source path that does not exist, both the replace mode and
the merge mode first delete the old index entry and only then attempt the
re-add, which fails on the missing path; the update returns failure and the
resulting index no longer contains the user. -/
theorem c9_update_missing_source_loses_entry (compress : List Nat → List Nat)
    (hash : List Nat → String) (st : UserState) (uid : String) (src : Source)
    (mode now : String) (m : UserMeta)
    (hm : lookupKey st.users uid = some m) (hp : src.pathExists = false)
    (hmode : mode = ("replace") ∨ mode = ("merge")) :
    (update_user compress hash st uid src mode now).1 = false
    ∧ lookupKey (update_user compress hash st uid src mode now).2.users uid
        = none := by
  have hk := hasKey_of_lookup hm
  have hke := hasKey_erase st.users uid
  have hnone : lookupKey (dictErase st.users uid) uid = none :=
    lookup_none_of_hasKey hke
  rcases hmode with h | h <;> subst h
  · constructor
    · simp only [update_user, add_user]
      rw [hk, hke, hp]
      rfl
    · simp only [update_user, add_user]
      rw [hk, hke, hp]
      exact hnone
  · constructor
    · simp only [update_user, add_user]
      rw [hk, hm, hke, hp]
      rfl
    · simp only [update_user, add_user]
      rw [hk, hm, hke, hp]
      exact hnone

/-- Witness for claim C9 at a one user store and a missing source path. -/
theorem c9_update_missing_source_loses_entry_witness :
    lookupKey ([(("u"),
        ({ user_id := ("u"), description := (""), size := 1,
           compressed_size := 1, offset := 0, file_count := 0, files := [],
           checksum := ("c"), quota_mb := none, created_at := ("t"),
           updated_at := ("t"), version := 1 } : UserMeta))]) ("u")
      = some ({ user_id := ("u"), description := (""), size := 1,
                compressed_size := 1, offset := 0, file_count := 0,
                files := [], checksum := ("c"), quota_mb := none,
                created_at := ("t"), updated_at := ("t"),
                version := 1 } : UserMeta)
    ∧ (update_user (fun bs => bs) (fun _ => ("d"))
        ({ users := [(("u"),
            ({ user_id := ("u"), description := (""), size := 1,
               compressed_size := 1, offset := 0, file_count := 0,
               files := [], checksum := ("c"), quota_mb := none,
               created_at := ("t"), updated_at := ("t"),
               version := 1 } : UserMeta))],
           blob_data := [7], current_offset := 1 } : UserState) ("u")
        ({ pathExists := false, tarData := [8], fileNames := [],
           filesWithSizes := [], executables := [], libraries := [] } : Source)
        ("replace") ("t2")).1 = false
    ∧ lookupKey (update_user (fun bs => bs) (fun _ => ("d"))
        ({ users := [(("u"),
            ({ user_id := ("u"), description := (""), size := 1,
               compressed_size := 1, offset := 0, file_count := 0,
               files := [], checksum := ("c"), quota_mb := none,
               created_at := ("t"), updated_at := ("t"),
               version := 1 } : UserMeta))],
           blob_data := [7], current_offset := 1 } : UserState) ("u")
        ({ pathExists := false, tarData := [8], fileNames := [],
           filesWithSizes := [], executables := [], libraries := [] } : Source)
        ("replace") ("t2")).2.users ("u") = none := by
  refine ⟨by decide, ?_, ?_⟩
  · exact (c9_update_missing_source_loses_entry (fun bs => bs) (fun _ => ("d"))
      ({ users := [(("u"),
          ({ user_id := ("u"), description := (""), size := 1,
             compressed_size := 1, offset := 0, file_count := 0, files := [],
             checksum := ("c"), quota_mb := none, created_at := ("t"),
             updated_at := ("t"), version := 1 } : UserMeta))],
         blob_data := [7], current_offset := 1 } : UserState) ("u")
      ({ pathExists := false, tarData := [8], fileNames := [],
         filesWithSizes := [], executables := [], libraries := [] } : Source)
      ("replace") ("t2")
      ({ user_id := ("u"), description := (""), size := 1,
         compressed_size := 1, offset := 0, file_count := 0, files := [],
         checksum := ("c"), quota_mb := none, created_at := ("t"),
         updated_at := ("t"), version := 1 } : UserMeta)
      (by decide) (by decide) (Or.inl rfl)).1
  · exact (c9_update_missing_source_loses_entry (fun bs => bs) (fun _ => ("d"))
      ({ users := [(("u"),
          ({ user_id := ("u"), description := (""), size := 1,
             compressed_size := 1, offset := 0, file_count := 0, files := [],
             checksum := ("c"), quota_mb := none, created_at := ("t"),
             updated_at := ("t"), version := 1 } : UserMeta))],
         blob_data := [7], current_offset := 1 } : UserState) ("u")
      ({ pathExists := false, tarData := [8], fileNames := [],
         filesWithSizes := [], executables := [], libraries := [] } : Source)
      ("replace") ("t2")
      ({ user_id := ("u"), description := (""), size := 1,
         compressed_size := 1, offset := 0, file_count := 0, files := [],
         checksum := ("c"), quota_mb := none, created_at := ("t"),
         updated_at := ("t"), version := 1 } : UserMeta)
      (by decide) (by decide) (Or.inl rfl)).2

theorem build_payload_drop (magic idx blob : List Nat) (hm : magic.length = 8) :
    (magic ++ u16le 1 ++ u32le idx.length ++ idx ++ blob).drop (14 + idx.length)
      = blob := by
  have l14b : (magic ++ u16le 1 ++ u32le idx.length ++ idx).length
      = 14 + idx.length := by
    simp [u16le, u32le, hm]; omega
  exact drop_len_eq _ blob (14 + idx.length) l14b

theorem add_application_apps (compress : List Nat → List Nat)
    (hash : List Nat → String) (st : AppState) (k n : String) (src : Source)
    (ver : String) (deps : List String) :
    (add_application compress hash st k n src ver deps).apps
      = dictInsert st.apps k
          { key := k, name := n, version := ver,
            size := src.tarData.length,
            compressed_size := (compress src.tarData).length,
            offset := st.current_offset, dependencies := deps,
            files := src.fileNames, checksum := hash src.tarData } := rfl

theorem add_application_cursor (compress : List Nat → List Nat)
    (hash : List Nat → String) (st : AppState) (k n : String) (src : Source)
    (ver : String) (deps : List String) :
    (add_application compress hash st k n src ver deps).current_offset
      = st.current_offset + (compress src.tarData).length := rfl

theorem addApplicationB_apps (compress : List Nat → List Nat)
    (hash : List Nat → String) (st : AppBState) (k n : String) (src : Source)
    (ver : String) (deps : List String) (de now : String)
    (hp : src.pathExists = true) :
    (addApplicationB compress hash st k n src ver deps de now).2.apps
      = dictInsert st.apps k
          { key := k, name := n, version := ver,
            size := src.tarData.length,
            compressed_size := (compress src.tarData).length,
            offset := st.current_offset, dependencies := deps,
            files := src.fileNames, checksum := hash src.tarData,
            created_at := now } := by
  rw [addApplicationB_eq compress hash st k n src ver deps de now hp]

theorem addApplicationB_cursor (compress : List Nat → List Nat)
    (hash : List Nat → String) (st : AppBState) (k n : String) (src : Source)
    (ver : String) (deps : List String) (de now : String)
    (hp : src.pathExists = true) :
    (addApplicationB compress hash st k n src ver deps de now).2.current_offset
      = st.current_offset + (compress src.tarData).length := by
  rw [addApplicationB_eq compress hash st k n src ver deps de now hp]

theorem add_binary_binaries (compress : List Nat → List Nat)
    (hash : List Nat → String) (st : BinState) (k : String) (src : Source)
    (pv : List String) (ver de : String) (ev : List (String × String))
    (deps : List String) (ar ost now : String)
    (hk : hasKey st.binaries k = false) (hp : src.pathExists = true) :
    (add_binary compress hash st k src pv ver de ev deps ar ost now).2.binaries
      = dictInsert st.binaries k
          { key := k, version := ver, description := de,
            size := src.tarData.length,
            compressed_size := (compress src.tarData).length,
            offset := st.current_offset, checksum := hash src.tarData,
            provides := pv, executables := src.executables,
            libraries := src.libraries, dependencies := deps,
            env_vars := ev, architecture := ar, os_type := ost,
            created_at := now } := by
  rw [add_binary_eq compress hash st k src pv ver de ev deps ar ost now hk hp]

theorem add_binary_cursor (compress : List Nat → List Nat)
    (hash : List Nat → String) (st : BinState) (k : String) (src : Source)
    (pv : List String) (ver de : String) (ev : List (String × String))
    (deps : List String) (ar ost now : String)
    (hk : hasKey st.binaries k = false) (hp : src.pathExists = true) :
    (add_binary compress hash st k src pv ver de ev deps ar ost now).2.current_offset
      = st.current_offset + (compress src.tarData).length := by
  rw [add_binary_eq compress hash st k src pv ver de ev deps ar ost now hk hp]

theorem add_user_users (compress : List Nat → List Nat)
    (hash : List Nat → String) (st : UserState) (uid : String) (src : Source)
    (de : String) (q : Option Nat) (now : String)
    (hk : hasKey st.users uid = false) (hp : src.pathExists = true) :
    (add_user compress hash st uid src de q now).2.users
      = dictInsert st.users uid
          { user_id := uid, description := de,
            size := src.tarData.length,
            compressed_size := (compress src.tarData).length,
            offset := st.current_offset,
            file_count := src.filesWithSizes.length,
            files := src.filesWithSizes, checksum := hash src.tarData,
            quota_mb := q, created_at := now, updated_at := now,
            version := 1 } := by
  rw [add_user_eq compress hash st uid src de q now hk hp]

theorem add_user_cursor (compress : List Nat → List Nat)
    (hash : List Nat → String) (st : UserState) (uid : String) (src : Source)
    (de : String) (q : Option Nat) (now : String)
    (hk : hasKey st.users uid = false) (hp : src.pathExists = true) :
    (add_user compress hash st uid src de q now).2.current_offset
      = st.current_offset + (compress src.tarData).length := by
  rw [add_user_eq compress hash st uid src de q now hk hp]

/-- Claim C7 as amended: after removing an existing user and rebuilding,
the index no longer contains the key and the rebuilt payload region is byte
for byte the old payload buffer, so the orphaned bytes of the removed user
stay physically present and the payload region does not shrink; the total
file size however can shrink, by the removed entry's serialized index
bytes, which is what the counterexample exhibits. -/
theorem c7_remove_rebuild_payload (st : UserState) (uid now : String)
    (h : hasKey st.users uid = true) :
    (remove_user st uid).1 = true
    ∧ hasKey (remove_user st uid).2.users uid = false
    ∧ (remove_user st uid).2.blob_data = st.blob_data
    ∧ (userdataBuild now (remove_user st uid).2).drop
        (14 + (jsonUserIndex now (remove_user st uid).2.users).length)
      = st.blob_data := by
  rw [remove_user_eq st uid h]
  exact ⟨rfl, hasKey_erase st.users uid, rfl,
    build_payload_drop USER_MAGIC
      (jsonUserIndex now (dictErase st.users uid)) st.blob_data (by decide)⟩

/-- Witness for claim C7 at a one user store. -/
theorem c7_remove_rebuild_payload_witness :
    hasKey ([(("u"),
        ({ user_id := ("u"), description := (""), size := 1,
           compressed_size := 1, offset := 0, file_count := 0, files := [],
           checksum := ("c"), quota_mb := none, created_at := ("t"),
           updated_at := ("t"), version := 1 } : UserMeta))]) ("u") = true
    ∧ (userdataBuild ("t2")
        (remove_user
          ({ users := [(("u"),
              ({ user_id := ("u"), description := (""), size := 1,
                 compressed_size := 1, offset := 0, file_count := 0,
                 files := [], checksum := ("c"), quota_mb := none,
                 created_at := ("t"), updated_at := ("t"),
                 version := 1 } : UserMeta))],
             blob_data := [7], current_offset := 1 } : UserState) ("u")).2).drop
        (14 + (jsonUserIndex ("t2")
          (remove_user
            ({ users := [(("u"),
                ({ user_id := ("u"), description := (""), size := 1,
                   compressed_size := 1, offset := 0, file_count := 0,
                   files := [], checksum := ("c"), quota_mb := none,
                   created_at := ("t"), updated_at := ("t"),
                   version := 1 } : UserMeta))],
               blob_data := [7], current_offset := 1 } : UserState)
            ("u")).2.users).length)
      = [7] :=
  ⟨by decide,
    (c7_remove_rebuild_payload
      ({ users := [(("u"),
          ({ user_id := ("u"), description := (""), size := 1,
             compressed_size := 1, offset := 0, file_count := 0, files := [],
             checksum := ("c"), quota_mb := none, created_at := ("t"),
             updated_at := ("t"), version := 1 } : UserMeta))],
         blob_data := [7], current_offset := 1 } : UserState) ("u") ("t2")
      (by decide)).2.2.2⟩

set_option maxRecDepth 8000 in
/-- Counterexample for claim C7 as stated: removing a user and rebuilding
shrinks the container file, because the serialized index loses the removed
entry while the payload region keeps its size; the rewritten file is
strictly smaller than the pre removal file built from the same state with a
timestamp of the same length. -/
theorem c7_remove_rebuild_counterexample :
    (remove_user
        ({ users := [(("u"),
            ({ user_id := ("u"), description := (""), size := 1,
               compressed_size := 1, offset := 0, file_count := 0,
               files := [], checksum := ("c"), quota_mb := none,
               created_at := ("t"), updated_at := ("t"),
               version := 1 } : UserMeta))],
           blob_data := [7], current_offset := 1 } : UserState) ("u")).1 = true
    ∧ (userdataBuild ("t2")
        (remove_user
          ({ users := [(("u"),
              ({ user_id := ("u"), description := (""), size := 1,
                 compressed_size := 1, offset := 0, file_count := 0,
                 files := [], checksum := ("c"), quota_mb := none,
                 created_at := ("t"), updated_at := ("t"),
                 version := 1 } : UserMeta))],
             blob_data := [7], current_offset := 1 } : UserState)
          ("u")).2).length
      < (userdataBuild ("t2")
          ({ users := [(("u"),
              ({ user_id := ("u"), description := (""), size := 1,
                 compressed_size := 1, offset := 0, file_count := 0,
                 files := [], checksum := ("c"), quota_mb := none,
                 created_at := ("t"), updated_at := ("t"),
                 version := 1 } : UserMeta))],
             blob_data := [7], current_offset := 1 } : UserState)).length := by
  refine ⟨by decide, by decide⟩

/-- Claim C8 as amended: at construction time every fresh builder satisfies
the offset contiguity invariant, the first recorded offset is zero, every
next offset is the previous offset plus the previous compressed size, and
the write cursor equals the sum of the recorded compressed sizes; every add
whose key is not already present preserves the invariant, and in the binary
and user data variants every add call preserves it because a duplicate key
or missing source fails without mutating. In the application variants an
add that reuses an existing key breaks the invariant, which is what the
counterexample exhibits. -/
theorem c8_offsets_invariant (compress : List Nat → List Nat)
    (hash : List Nat → String) :
    (managerInv emptyAppState ∧ builderInv emptyAppBState
      ∧ binInv emptyBinState ∧ userInv emptyUserState)
    ∧ (∀ (st : AppState) (k n : String) (src : Source) (ver : String)
        (deps : List String), managerInv st → hasKey st.apps k = false →
        managerInv (add_application compress hash st k n src ver deps))
    ∧ (∀ (st : AppBState) (k n : String) (src : Source) (ver : String)
        (deps : List String) (de now : String), builderInv st →
        hasKey st.apps k = false →
        builderInv (addApplicationB compress hash st k n src ver deps de now).2)
    ∧ (∀ (st : BinState) (k : String) (src : Source) (pv : List String)
        (ver de : String) (ev : List (String × String)) (deps : List String)
        (ar ost now : String), binInv st →
        binInv (add_binary compress hash st k src pv ver de ev deps ar ost now).2)
    ∧ (∀ (st : UserState) (uid : String) (src : Source) (de : String)
        (q : Option Nat) (now : String), userInv st →
        userInv (add_user compress hash st uid src de q now).2) := by
  refine ⟨⟨⟨rfl, rfl⟩, ⟨rfl, rfl⟩, ⟨rfl, rfl⟩, ⟨rfl, rfl⟩⟩, ?_, ?_, ?_, ?_⟩
  · intro st k n src ver deps hInv hk
    obtain ⟨h1, h2⟩ := hInv
    unfold managerInv
    rw [add_application_apps, add_application_cursor,
      dictInsert_fresh _ hk, appPairs_append]
    exact ⟨(inv_step (appPairs st.apps) st.current_offset _ h1 h2).1,
      (inv_step (appPairs st.apps) st.current_offset _ h1 h2).2⟩
  · intro st k n src ver deps de now hInv hk
    obtain ⟨h1, h2⟩ := hInv
    cases hp : src.pathExists with
    | false =>
      rw [addApplicationB_nosrc compress hash st k n src ver deps de now hp]
      exact ⟨h1, h2⟩
    | true =>
      unfold builderInv
      rw [addApplicationB_apps compress hash st k n src ver deps de now hp,
        addApplicationB_cursor compress hash st k n src ver deps de now hp,
        dictInsert_fresh _ hk, appBPairs_append]
      exact ⟨(inv_step (appBPairs st.apps) st.current_offset _ h1 h2).1,
        (inv_step (appBPairs st.apps) st.current_offset _ h1 h2).2⟩
  · intro st k src pv ver de ev deps ar ost now hInv
    obtain ⟨h1, h2⟩ := hInv
    cases hk : hasKey st.binaries k with
    | true =>
      rw [add_binary_dup compress hash st k src pv ver de ev deps ar ost now hk]
      exact ⟨h1, h2⟩
    | false =>
      cases hp : src.pathExists with
      | false =>
        rw [add_binary_nosrc compress hash st k src pv ver de ev deps ar ost
          now hk hp]
        exact ⟨h1, h2⟩
      | true =>
        unfold binInv
        rw [add_binary_binaries compress hash st k src pv ver de ev deps ar
            ost now hk hp,
          add_binary_cursor compress hash st k src pv ver de ev deps ar ost
            now hk hp,
          dictInsert_fresh _ hk, binPairs_append]
        exact ⟨(inv_step (binPairs st.binaries) st.current_offset _ h1 h2).1,
          (inv_step (binPairs st.binaries) st.current_offset _ h1 h2).2⟩
  · intro st uid src de q now hInv
    obtain ⟨h1, h2⟩ := hInv
    cases hk : hasKey st.users uid with
    | true =>
      rw [add_user_dup compress hash st uid src de q now hk]
      exact ⟨h1, h2⟩
    | false =>
      cases hp : src.pathExists with
      | false =>
        rw [add_user_nosrc compress hash st uid src de q now hk hp]
        exact ⟨h1, h2⟩
      | true =>
        unfold userInv
        rw [add_user_users compress hash st uid src de q now hk hp,
          add_user_cursor compress hash st uid src de q now hk hp,
          dictInsert_fresh _ hk, userPairs_append]
        exact ⟨(inv_step (userPairs st.users) st.current_offset _ h1 h2).1,
          (inv_step (userPairs st.users) st.current_offset _ h1 h2).2⟩

/-- Witness for claim C8: one fresh add in the manager variant. -/
theorem c8_offsets_invariant_witness :
    managerInv emptyAppState
    ∧ hasKey emptyAppState.apps ("k") = false
    ∧ managerInv (add_application (fun bs => bs) (fun _ => ("h"))
        emptyAppState ("k") ("n")
        ({ pathExists := true, tarData := [7], fileNames := [],
           filesWithSizes := [], executables := [], libraries := [] } : Source)
        ("1") []) :=
  ⟨⟨rfl, rfl⟩, rfl,
    (c8_offsets_invariant (fun bs => bs) (fun _ => ("h"))).2.1 emptyAppState
      ("k") ("n")
      ({ pathExists := true, tarData := [7], fileNames := [],
         filesWithSizes := [], executables := [], libraries := [] } : Source)
      ("1") [] ⟨rfl, rfl⟩ rfl⟩

/-- Counterexample for claim C8 as stated: a sequence of two successful adds
with the same key on a fresh all in one application builder leaves a state
that violates the invariant: the single surviving entry is recorded at
offset one, not zero, and the write cursor is three while the recorded
compressed sizes sum to two. -/
theorem c8_offsets_invariant_counterexample :
    (addApplicationB (fun bs => bs) (fun _ => ("h")) emptyAppBState
        ("k") ("n")
        ({ pathExists := true, tarData := [7], fileNames := [],
           filesWithSizes := [], executables := [], libraries := [] } : Source)
        ("1") [] ("") ("t")).1 = true
    ∧ (addApplicationB (fun bs => bs) (fun _ => ("h"))
        (addApplicationB (fun bs => bs) (fun _ => ("h")) emptyAppBState
          ("k") ("n")
          ({ pathExists := true, tarData := [7], fileNames := [],
             filesWithSizes := [], executables := [], libraries := [] } : Source)
          ("1") [] ("") ("t")).2
        ("k") ("n")
        ({ pathExists := true, tarData := [8, 9], fileNames := [],
           filesWithSizes := [], executables := [], libraries := [] } : Source)
        ("1") [] ("") ("t")).1 = true
    ∧ ¬ builderInv (addApplicationB (fun bs => bs) (fun _ => ("h"))
        (addApplicationB (fun bs => bs) (fun _ => ("h")) emptyAppBState
          ("k") ("n")
          ({ pathExists := true, tarData := [7], fileNames := [],
             filesWithSizes := [], executables := [], libraries := [] } : Source)
          ("1") [] ("") ("t")).2
        ("k") ("n")
        ({ pathExists := true, tarData := [8, 9], fileNames := [],
           filesWithSizes := [], executables := [], libraries := [] } : Source)
        ("1") [] ("") ("t")).2 := by
  refine ⟨by decide, by decide, by unfold builderInv; decide⟩

end Blob
